import Mathlib

/-!
Shallow embedding of the daily-vcs-web video-input reconciliation engine
(`src/VCSWebRenderer.ts`) and its helper functions
(`src/lib/videoUtils.ts`, `src/lib/isTrackOff.ts`).

The embedding models the renderer's mutable fields as an explicit record,
the calls made on the external `vcsApi` handle as an emitted event list,
and DOM video elements as numeric rendering-surface handles allocated
from a counter.  Image loading is modelled by an oracle
`loads : String → Bool` telling which URLs load successfully.
-/

namespace VCSWeb

/-- Daily track liveness states (`DailyTrackState`). -/
inductive TrackState
  | off
  | blocked
  | sendable
  | loading
  | interrupted
  | playable
deriving DecidableEq, Repr

/-- `isTrackOff` from `src/lib/isTrackOff.ts`:
`['off', 'blocked'].includes(state)`. -/
def isTrackOff (s : TrackState) : Bool :=
  s = TrackState.off || s = TrackState.blocked

/-- A media track handle; only its `id` is ever inspected by the renderer. -/
structure MediaTrack where
  id : String
deriving DecidableEq, Repr

/-- `VcsVideoInputType` from `src/types/index.ts`. -/
inductive VideoInputType
  | camera
  | screenshare
deriving DecidableEq, Repr

/-- `VideoInput` from `src/types/index.ts`.  The optional
`element?: HTMLVideoElement` rendering surface is modelled as an optional
numeric handle. -/
structure VideoInput where
  id : String
  type : VideoInputType
  displayName : String
  dominant : Bool
  paused : Bool
  pausedByUser : Bool
  track : Option MediaTrack
  element : Option Nat
deriving DecidableEq, Repr

/-- `ActiveVideoSlot` from `src/types/index.ts` (the object built by
`setActiveVideoInput`). -/
structure ActiveVideoSlot where
  id : String
  type : VideoInputType
  displayName : String
  paused : Bool
  dominant : Bool
deriving DecidableEq, Repr

/-- A call made on the external `vcsApi` control handle or a notification
callback invocation.  `onParamsChanged` records the argument the callback
receives at the moment of the call. -/
inductive Emit
  | updateImageSources (videoSlots : List VideoInput)
      (assetImages : List (String × String))
  | setActiveVideoInputSlots (slots : List (Option ActiveVideoSlot))
  | setScaleFactor
  | setParamValue (paramId : String) (value : String)
  | onParamsChanged (params : List (String × String))
deriving DecidableEq, Repr

/-- The renderer's mutable fields that the reconciler, the image pipeline
and the parameter pipeline read or write (`DailyVCSWebRenderer`).
`activeVideoInputSlots` entries are `ActiveVideoSlot | false` in the
source; `false` is modelled as `none`.  `hasVcsApi` records whether
`this.vcsApi` is set (the renderer has been started).
`localSessionId` is `callObject.participants().local.session_id`. -/
structure RendererState where
  videoSlots : List VideoInput
  assetImages : List (String × String)
  activeVideoInputSlots : List (Option ActiveVideoSlot)
  knownNonScreenshareVideoInputIds : List String
  paramValues : List (String × String)
  includePausedVideo : Bool
  localSessionId : String
  maxVideoInputSlots : Nat
  nextElementId : Nat
  hasVcsApi : Bool
deriving DecidableEq, Repr

/-- The module constant `MAX_VIDEO_INPUT_SLOTS = 20` of
`src/VCSWebRenderer.ts` (distinct from the configurable
`maxVideoInputSlots` field). -/
def MAX_VIDEO_INPUT_SLOTS : Nat := 20

/-- JS `Set.add`: append the element unless already present. -/
def setAdd (s : List String) (x : String) : List String :=
  if x ∈ s then s else s ++ [x]

/-- JS object property assignment `m[k] = v`: overwrite in place if the key
exists (keeping insertion order), else append. -/
def objSet (m : List (String × String)) (k v : String) :
    List (String × String) :=
  if m.any (fun p => p.1 = k) then
    m.map (fun p => if p.1 = k then (k, v) else p)
  else m ++ [(k, v)]

/-- JS object spread / `Object.assign`-style accumulation of `b`'s entries
onto `a`. -/
def objAssign (a b : List (String × String)) : List (String × String) :=
  b.foldl (fun acc p => objSet acc p.1 p.2) a

/-- JS array element assignment `l[idx] = v`, extending the array with
holes when `idx ≥ l.length` (holes behave as `false`/`none` downstream). -/
def jsArraySet (l : List (Option ActiveVideoSlot)) (idx : Nat)
    (v : Option ActiveVideoSlot) : List (Option ActiveVideoSlot) :=
  if idx < l.length then l.set idx v
  else l ++ List.replicate (idx - l.length) none ++ [v]

/-- `t?.id` on an optional track. -/
def trackId (t : Option MediaTrack) : Option String :=
  t.map MediaTrack.id

/-- The renderer state fresh out of the constructor:
`activeVideoInputSlots` holds `maxVideoInputSlots` empty markers, the
slot list, known-ids set, asset map and param map are empty. -/
def initState (localSessionId : String) (includePausedVideo : Bool)
    (maxVideoInputSlots : Nat) (hasVcsApi : Bool) : RendererState :=
  { videoSlots := []
    assetImages := []
    activeVideoInputSlots := List.replicate maxVideoInputSlots none
    knownNonScreenshareVideoInputIds := []
    paramValues := []
    includePausedVideo := includePausedVideo
    localSessionId := localSessionId
    maxVideoInputSlots := maxVideoInputSlots
    nextElementId := 0
    hasVcsApi := hasVcsApi }

/-- Accumulator of the `for (const video of videos)` loop in
`applyTracks`: the slot list being built, the known-ids set (mutated
during the loop), and the surface-allocation counter. -/
structure ApplyAcc where
  newSlots : List VideoInput
  known : List String
  nextElementId : Nat
deriving DecidableEq, Repr

/-- One iteration of the candidate loop of `applyTracks`
(`src/VCSWebRenderer.ts`, lines 668–761).

* Skip rule: a candidate with no track is dropped unless
  `includePausedVideo` is set, it is not a screenshare, and its id is in
  the known non-screenshare ids set.
* If a previous slot with the candidate's id exists:
  - local participant's id: push the previous slot with the new track
    bound only when a live track with a different id arrived (nothing is
    pushed otherwise);
  - otherwise: push the previous slot with refreshed `dominant`,
    `paused`, `displayName` only when the bound track identity is
    unchanged (nothing is pushed otherwise).
* If no previous slot exists: allocate a fresh surface handle when a live
  track is present (the source's `prevSlot?.element` reuse test is
  unreachable here since `prevSlot` is null on this path), push the
  candidate, and add its id to the known set when it is not a
  screenshare. -/
def applyTracksStep (localSessionId : String) (includePausedVideo : Bool)
    (prevSlots : List VideoInput) (acc : ApplyAcc) (video : VideoInput) :
    ApplyAcc :=
  if video.track = none ∧
      ¬(includePausedVideo = true ∧
        ¬(video.type = VideoInputType.screenshare) ∧
        video.id ∈ acc.known) then
    acc
  else
    match prevSlots.find? (fun it => it.id = video.id) with
    | some prevSlot =>
      if localSessionId = prevSlot.id then
        match video.track with
        | some t =>
          if trackId prevSlot.track ≠ some t.id then
            { acc with
              newSlots := acc.newSlots ++ [{ prevSlot with track := some t }] }
          else acc
        | none => acc
      else
        if trackId prevSlot.track = trackId video.track then
          { acc with
            newSlots := acc.newSlots ++
              [{ prevSlot with
                  dominant := video.dominant
                  paused := video.paused
                  displayName := video.displayName }] }
        else acc
    | none =>
      match video.track with
      | some _ =>
        { newSlots :=
            acc.newSlots ++ [{ video with element := some acc.nextElementId }]
          known :=
            if video.type = VideoInputType.screenshare then acc.known
            else setAdd acc.known video.id
          nextElementId := acc.nextElementId + 1 }
      | none =>
        { newSlots := acc.newSlots ++ [{ video with element := none }]
          known :=
            if video.type = VideoInputType.screenshare then acc.known
            else setAdd acc.known video.id
          nextElementId := acc.nextElementId }

/-- The positional slot comparison of `applyTracks`'s change-detection
loop: id, paused, dominant, displayName, or `track?.id` differs. -/
def slotDiffersB (news prev : VideoInput) : Bool :=
  decide (news.id ≠ prev.id) || decide (news.paused ≠ prev.paused) ||
  decide (news.dominant ≠ prev.dominant) ||
  decide (news.displayName ≠ prev.displayName) ||
  decide (trackId news.track ≠ trackId prev.track)

/-- `didChange` of `applyTracks`: lengths differ, or some position
differs per `slotDiffersB`. -/
def computeDidChange (newSlots prevSlots : List VideoInput) : Bool :=
  decide (newSlots.length ≠ prevSlots.length) ||
  (List.zip newSlots prevSlots).any (fun p => slotDiffersB p.1 p.2)

/-- `setActiveVideoInput(i, true, slot.id, slot.displayName,
slot.type === 'screenshare', slot.paused, slot.dominant)`. -/
def toActiveVideoSlot (slot : VideoInput) : ActiveVideoSlot :=
  { id := slot.id
    type :=
      if slot.type = VideoInputType.screenshare then
        VideoInputType.screenshare
      else VideoInputType.camera
    displayName :=
      if slot.type = VideoInputType.screenshare then "" else slot.displayName
    paused := slot.paused
    dominant := slot.dominant }

/-- The `for (let i = 0; i < MAX_VIDEO_INPUT_SLOTS; i++)` loop of
`applyTracks` writing the active-slot array: note the source iterates up
to the module constant, not the configured `maxVideoInputSlots`. -/
def updateActiveSlots (active : List (Option ActiveVideoSlot))
    (newSlots : List VideoInput) : List (Option ActiveVideoSlot) :=
  (List.range MAX_VIDEO_INPUT_SLOTS).foldl
    (fun arr i =>
      match newSlots.get? i with
      | some slot => jsArraySet arr i (some (toActiveVideoSlot slot))
      | none => jsArraySet arr i none)
    active

/-- Result of one `applyTracks` call: the renderer state afterwards, the
computed new slot list, the `didChange` flag, and the downstream calls
made on the `vcsApi` handle. -/
structure ApplyResult where
  state : RendererState
  newSlots : List VideoInput
  didChange : Bool
  emits : List Emit
deriving DecidableEq, Repr

/-- The candidate loop of `applyTracks` run to completion: fold
`applyTracksStep` over the candidate list, starting from an empty new
slot list and the renderer's current known-ids set and surface counter.
The committed slot list read by the loop (`prevSlots` in the source) is
fixed at entry. -/
def applyTracksAcc (s : RendererState) (videos : List VideoInput) :
    ApplyAcc :=
  videos.foldl
    (applyTracksStep s.localSessionId s.includePausedVideo s.videoSlots)
    { newSlots := []
      known := s.knownNonScreenshareVideoInputIds
      nextElementId := s.nextElementId }

/-- `applyTracks` (`src/VCSWebRenderer.ts`, lines 660–814): run the
candidate loop against the committed slot list, compute `didChange`, and
when a change is detected commit the new slot list, push the image
sources, rebuild and push the active-slot array, and push the scale
factor (each push only if the `vcsApi` handle exists). -/
def applyTracks (s : RendererState) (videos : List VideoInput) :
    ApplyResult :=
  if computeDidChange (applyTracksAcc s videos).newSlots s.videoSlots then
    { state :=
        { s with
          videoSlots := (applyTracksAcc s videos).newSlots
          knownNonScreenshareVideoInputIds := (applyTracksAcc s videos).known
          nextElementId := (applyTracksAcc s videos).nextElementId
          activeVideoInputSlots :=
            updateActiveSlots s.activeVideoInputSlots
              (applyTracksAcc s videos).newSlots }
      newSlots := (applyTracksAcc s videos).newSlots
      didChange := true
      emits :=
        if s.hasVcsApi then
          [Emit.updateImageSources (applyTracksAcc s videos).newSlots
             s.assetImages,
           Emit.setActiveVideoInputSlots
             (updateActiveSlots s.activeVideoInputSlots
               (applyTracksAcc s videos).newSlots),
           Emit.setScaleFactor]
        else [] }
  else
    { state :=
        { s with
          knownNonScreenshareVideoInputIds := (applyTracksAcc s videos).known
          nextElementId := (applyTracksAcc s videos).nextElementId }
      newSlots := (applyTracksAcc s videos).newSlots
      didChange := false
      emits := [] }

/-- Result of one `updateImageSources` call: the renderer state, the
downstream calls, the asset names for which a load probe was issued, and
the error surfaced to the caller (the rejection caught by the `catch`
block, or the invalid-merge-type report). -/
structure ImageUpdateResult where
  state : RendererState
  emits : List Emit
  probed : List String
  error : Option String
deriving DecidableEq, Repr

/-- `updateImageSources` (`src/VCSWebRenderer.ts`, lines 609–654).
Load probes are issued for every entry up front (an `Image` is created
and its `src` set before anything is awaited); `Promise.all` then either
rejects with the first failing probe's error — leaving all state
untouched — or yields the loaded map, which is combined per `mergeType`
(`merge` = spread of the committed map then the batch, `replace` = the
batch alone, anything else = report an error and return without
mutating) and pushed downstream via `sendUpdateImageSources` when the
`vcsApi` handle exists. -/
def updateImageSources (s : RendererState) (loads : String → Bool)
    (images : List (String × String)) (mergeType : String) :
    ImageUpdateResult :=
  let probed := images.map Prod.fst
  match images.find? (fun p => ! loads p.2) with
  | some p =>
    { state := s
      emits := []
      probed := probed
      error := some ("Image load failed, asset " ++ p.1) }
  | none =>
    let loaded := objAssign [] images
    if mergeType = "merge" then
      let committed := objAssign (objAssign [] s.assetImages) loaded
      { state := { s with assetImages := committed }
        emits :=
          if s.hasVcsApi then
            [Emit.updateImageSources s.videoSlots committed]
          else []
        probed := probed
        error := none }
    else if mergeType = "replace" then
      { state := { s with assetImages := loaded }
        emits :=
          if s.hasVcsApi then
            [Emit.updateImageSources s.videoSlots loaded]
          else []
        probed := probed
        error := none }
    else
      { state := s
        emits := []
        probed := probed
        error :=
          some "Invalid mergeType. Please use either \"merge\" or \"replace\"." }

/-- `sendParam` (`src/VCSWebRenderer.ts`, lines 578–586): when the
`vcsApi` handle exists, forward the value and invoke `onParamsChanged`
with the parameter map as it stands at that moment; then record the
value in `paramValues`. -/
def sendParam (s : RendererState) (paramId : String) (value : String) :
    RendererState × List Emit :=
  let emits :=
    if s.hasVcsApi then
      [Emit.setParamValue paramId value, Emit.onParamsChanged s.paramValues]
    else []
  ({ s with paramValues := objSet s.paramValues paramId value }, emits)

/-- The `Object.entries(params).forEach(([id, value]) =>
this.sendParam(id, value))` loop of `sendParams`: apply `sendParam` to
each entry in order, collecting the emitted calls. -/
def sendParamsGo (s : RendererState) :
    List (String × String) → RendererState × List Emit
  | [] => (s, [])
  | p :: ps =>
    ((sendParamsGo (sendParam s p.1 p.2).1 ps).1,
     (sendParam s p.1 p.2).2 ++ (sendParamsGo (sendParam s p.1 p.2).1 ps).2)

/-- `sendParams` (`src/VCSWebRenderer.ts`, lines 591–594): clear the map
on `replace`, then `sendParam` each entry in order. -/
def sendParams (s : RendererState) (params : List (String × String))
    (mergeType : String) : RendererState × List Emit :=
  sendParamsGo
    (if mergeType = "replace" then { s with paramValues := [] } else s)
    params

/-- Per-track participant state: `tracks[name]` with its liveness
`state`, the `off?.byUser` flag (`none` when the `off` object or the
`byUser` field is absent) and the optional `persistentTrack`. -/
structure TrackInfo where
  state : TrackState
  offByUser : Option Bool
  persistentTrack : Option MediaTrack
deriving DecidableEq, Repr

/-- The `tracks` object of a Daily participant, restricted to the fields
the projection reads. -/
structure ParticipantTracks where
  video : Option TrackInfo
  screenVideo : Option TrackInfo
  rmpVideo : Option TrackInfo
deriving DecidableEq, Repr

/-- A Daily participant record, restricted to the fields the projection
reads.  `user_name` equal to `""` models a missing/empty user name (both
are falsy in the source's `p.user_name || 'Guest'`). -/
structure Participant where
  session_id : String
  user_name : String
  tracks : Option ParticipantTracks
deriving DecidableEq, Repr

/-- The logical track name selecting which track to project. -/
inductive TrackName
  | video
  | screenVideo
  | rmpVideo
deriving DecidableEq, Repr

/-- `p?.tracks?.[trackName]`. -/
def selectTrack (ts : ParticipantTracks) (n : TrackName) : Option TrackInfo :=
  match n with
  | TrackName.video => ts.video
  | TrackName.screenVideo => ts.screenVideo
  | TrackName.rmpVideo => ts.rmpVideo

/-- The object produced by `createVideoInputObject`
(`src/lib/videoUtils.ts`, lines 40–54). -/
structure ProjVideoInput where
  paused : Bool
  pausedByUser : Bool
  id : String
  displayName : String
  track : Option MediaTrack
  type : VideoInputType
deriving DecidableEq, Repr

/-- `makeVideoIdForVcs` from `src/lib/videoUtils.ts`. -/
def makeVideoIdForVcs (p : Participant) (isScreenshare : Bool) : String :=
  p.session_id ++ (if isScreenshare then "_sshare" else "")

/-- `createVideoInputObject` (`src/lib/videoUtils.ts`, lines 40–54):
`paused` is `t ? isTrackOff(t?.state) : false`, `pausedByUser` is
`t?.off?.byUser ?? false`, the id is the session id (suffixed for
screen-share), the display name is empty for screen-share and otherwise
`p.user_name || 'Guest'`, and the track is `t?.persistentTrack`. -/
def createVideoInputObject (p : Participant) (trackName : TrackName) :
    ProjVideoInput :=
  let t := p.tracks.bind (fun ts => selectTrack ts trackName)
  let isScreenshare := trackName = TrackName.screenVideo
  { paused :=
      match t with
      | some ti => isTrackOff ti.state
      | none => false
    pausedByUser := (t.bind TrackInfo.offByUser).getD false
    id := makeVideoIdForVcs p isScreenshare
    displayName :=
      if isScreenshare then ""
      else if p.user_name = "" then "Guest" else p.user_name
    track := t.bind TrackInfo.persistentTrack
    type :=
      if isScreenshare then VideoInputType.screenshare
      else VideoInputType.camera }

/-! Concrete inputs used by the counterexample and witness theorems. -/

/-- A freshly constructed renderer whose local participant has session id
`"L"`, with the default `includePausedVideo = true`, the default capacity
`20`, and a live `vcsApi` handle. -/
def baseState : RendererState := initState "L" true 20 true

/-- A camera candidate owned by the local participant (id `"L"`) bound to
live track `"t1"`. -/
def localCam : VideoInput :=
  { id := "L", type := VideoInputType.camera, displayName := "Me",
    dominant := false, paused := false, pausedByUser := false,
    track := some { id := "t1" }, element := none }

/-- A committed slot for remote participant `"R"` bound to track `"t1"`
and owning surface handle `5`. -/
def slotR : VideoInput :=
  { id := "R", type := VideoInputType.camera, displayName := "Rem",
    dominant := false, paused := false, pausedByUser := false,
    track := some { id := "t1" }, element := some 5 }

/-- A candidate for `"R"` whose bound track identity changed to `"t2"`. -/
def candR2 : VideoInput :=
  { slotR with track := some { id := "t2" }, element := none }

/-- Renderer state whose committed slot list holds `slotR`. -/
def stateWithR : RendererState := { baseState with videoSlots := [slotR] }

/-- A trackless camera candidate for the previously seen id `"C"`. -/
def candC : VideoInput :=
  { id := "C", type := VideoInputType.camera, displayName := "Cam",
    dominant := false, paused := true, pausedByUser := false,
    track := none, element := none }

/-- Renderer state where `"C"` is a known non-screenshare id and the
committed slot for `"C"` still holds live track `"t1"`. -/
def stateWithTrackedC : RendererState :=
  { baseState with
    videoSlots := [{ slotR with id := "C" }]
    knownNonScreenshareVideoInputIds := ["C"] }

/-- Renderer state where `"C"` is a known non-screenshare id and no slot
is committed. -/
def stateKnownC : RendererState :=
  { baseState with knownNonScreenshareVideoInputIds := ["C"] }

/-- A camera candidate with id `i` bound to live track `t`. -/
def mkCand (i t : String) : VideoInput :=
  { id := i, type := VideoInputType.camera, displayName := i,
    dominant := false, paused := false, pausedByUser := false,
    track := some { id := t }, element := none }

/-- A renderer configured with capacity `maxVideoInputSlots = 5`. -/
def capFiveState : RendererState := initState "L" true 5 true

/-- Six live camera candidates — one more than `capFiveState`'s
configured capacity. -/
def sixCands : List VideoInput :=
  [mkCand "p1" "t1", mkCand "p2" "t2", mkCand "p3" "t3",
   mkCand "p4" "t4", mkCand "p5" "t5", mkCand "p6" "t6"]

/-- A participant record with no `tracks` object and no user name. -/
def bareParticipant : Participant :=
  { session_id := "s1", user_name := "", tracks := none }

/-- Spec-side statement of the positional slot difference used by change
detection: the two slots differ in id, paused flag, dominant flag,
display name, or bound-track identity. -/
def slotFieldsDiffer (a b : VideoInput) : Prop :=
  a.id ≠ b.id ∨ a.paused ≠ b.paused ∨ a.dominant ≠ b.dominant ∨
  a.displayName ≠ b.displayName ∨ trackId a.track ≠ trackId b.track

/-- Recognizer for `onParamsChanged` notification events. -/
def isParamsChangedEmit : Emit → Bool
  | Emit.onParamsChanged _ => true
  | _ => false

end VCSWeb

namespace VCSWeb

/-!  Helper lemmas about the reconciler. -/

/-- The new slot list returned by `applyTracks` is the candidate loop's
accumulator, whichever branch change detection takes. -/
theorem applyTracks_newSlots_eq (s : RendererState)
    (videos : List VideoInput) :
    (applyTracks s videos).newSlots = (applyTracksAcc s videos).newSlots := by
  unfold applyTracks
  split <;> rfl

/-- The known-ids set after `applyTracks` is the candidate loop's
accumulator, whichever branch change detection takes. -/
theorem applyTracks_known_eq (s : RendererState) (videos : List VideoInput) :
    (applyTracks s videos).state.knownNonScreenshareVideoInputIds =
      (applyTracksAcc s videos).known := by
  unfold applyTracks
  split <;> rfl

/-- The `didChange` flag returned by `applyTracks` is exactly
`computeDidChange` of the loop's new slot list against the committed
slot list. -/
theorem applyTracks_didChange_eq (s : RendererState)
    (videos : List VideoInput) :
    (applyTracks s videos).didChange =
      computeDidChange (applyTracksAcc s videos).newSlots s.videoSlots := by
  unfold applyTracks
  split
  next h => exact h.symm
  next h => exact ((Bool.not_eq_true _).mp h).symm

/-- `slotDiffersB` decides `slotFieldsDiffer`. -/
theorem slotDiffersB_iff (a b : VideoInput) :
    slotDiffersB a b = true ↔ slotFieldsDiffer a b := by
  unfold slotDiffersB slotFieldsDiffer
  simp [Bool.or_eq_true, decide_eq_true_eq, or_assoc]

/-- `computeDidChange` holds exactly when the lengths differ or some
position differs in one of the five compared fields. -/
theorem computeDidChange_iff (ns ps : List VideoInput) :
    computeDidChange ns ps = true ↔
      ns.length ≠ ps.length ∨
      ∃ (i : Nat) (h1 : i < ns.length) (h2 : i < ps.length),
        slotFieldsDiffer (ns.get ⟨i, h1⟩) (ps.get ⟨i, h2⟩) := by
  unfold computeDidChange
  rw [Bool.or_eq_true, decide_eq_true_eq, List.any_eq_true]
  apply or_congr Iff.rfl
  constructor
  · rintro ⟨x, hx, hdiff⟩
    rw [List.mem_iff_get] at hx
    obtain ⟨⟨i, hi⟩, hxi⟩ := hx
    have hi2 : i < min ns.length ps.length := by
      rw [← List.length_zip ns ps]
      exact hi
    have h1 : i < ns.length := lt_of_lt_of_le hi2 (min_le_left _ _)
    have h2 : i < ps.length := lt_of_lt_of_le hi2 (min_le_right _ _)
    refine ⟨i, h1, h2, ?_⟩
    subst hxi
    have hz : (ns.zip ps).get ⟨i, hi⟩ =
        (ns.get ⟨i, h1⟩, ps.get ⟨i, h2⟩) := by
      simp [List.get_eq_getElem]
    rw [hz] at hdiff
    rw [← slotDiffersB_iff]
    exact hdiff
  · rintro ⟨i, h1, h2, hdiff⟩
    refine ⟨(ns.get ⟨i, h1⟩, ps.get ⟨i, h2⟩), ?_, ?_⟩
    · rw [List.mem_iff_getElem]
      refine ⟨i, by rw [List.length_zip]; exact lt_min h1 h2, ?_⟩
      simp [List.get_eq_getElem]
    · rw [slotDiffersB_iff]
      exact hdiff

/-- `sendParam` leaves the `vcsApi` handle untouched. -/
theorem sendParam_hasVcsApi (s : RendererState) (pid pv : String) :
    (sendParam s pid pv).1.hasVcsApi = s.hasVcsApi := rfl

/-- The parameter map after the `sendParams` loop is the JS-object
accumulation of the sent entries onto the starting map. -/
theorem sendParamsGo_paramValues (ps : List (String × String)) :
    ∀ s : RendererState,
      (sendParamsGo s ps).1.paramValues = objAssign s.paramValues ps := by
  induction ps with
  | nil => intro s; rfl
  | cons p ps ih =>
    intro s
    show (sendParamsGo (sendParam s p.1 p.2).1 ps).1.paramValues = _
    rw [ih]
    rfl

/-- The `sendParams` loop emits exactly one `onParamsChanged`
notification per entry sent (when the `vcsApi` handle exists). -/
theorem sendParamsGo_filter_length (ps : List (String × String)) :
    ∀ s : RendererState, s.hasVcsApi = true →
      ((sendParamsGo s ps).2.filter isParamsChangedEmit).length =
        ps.length := by
  induction ps with
  | nil => intro s _; rfl
  | cons p ps ih =>
    intro s hs
    show (((sendParam s p.1 p.2).2 ++
        (sendParamsGo (sendParam s p.1 p.2).1 ps).2).filter
          isParamsChangedEmit).length = ps.length + 1
    rw [List.filter_append, List.length_append]
    have h1 : ((sendParam s p.1 p.2).2.filter isParamsChangedEmit).length
        = 1 := by
      unfold sendParam
      rw [if_pos hs]
      rfl
    rw [h1, ih (sendParam s p.1 p.2).1 hs]
    omega

/-- The `i`-th `onParamsChanged` notification emitted by the
`sendParams` loop carries the starting map accumulated with the first
`i` entries — i.e. the map as it stood just before the `i`-th entry was
recorded. -/
theorem sendParamsGo_filter_get (ps : List (String × String)) :
    ∀ (s : RendererState), s.hasVcsApi = true →
      ∀ i : Nat, i < ps.length →
        ((sendParamsGo s ps).2.filter isParamsChangedEmit).get? i =
          some (Emit.onParamsChanged (objAssign s.paramValues
            (ps.take i))) := by
  induction ps with
  | nil =>
    intro s _ i hi
    exact absurd hi (by simp)
  | cons p ps ih =>
    intro s hs i hi
    have hfa : ((sendParam s p.1 p.2).2 ++
        (sendParamsGo (sendParam s p.1 p.2).1 ps).2).filter
          isParamsChangedEmit =
        Emit.onParamsChanged s.paramValues ::
          ((sendParamsGo (sendParam s p.1 p.2).1 ps).2.filter
            isParamsChangedEmit) := by
      rw [List.filter_append]
      have h1 : (sendParam s p.1 p.2).2.filter isParamsChangedEmit =
          [Emit.onParamsChanged s.paramValues] := by
        unfold sendParam
        rw [if_pos hs]
        rfl
      rw [h1]
      rfl
    show (((sendParam s p.1 p.2).2 ++
        (sendParamsGo (sendParam s p.1 p.2).1 ps).2).filter
          isParamsChangedEmit).get? i = _
    rw [hfa]
    cases i with
    | zero => rfl
    | succ j =>
      have hj : j < ps.length := by
        simpa using hi
      show ((sendParamsGo (sendParam s p.1 p.2).1 ps).2.filter
          isParamsChangedEmit).get? j = _
      rw [ih (sendParam s p.1 p.2).1 hs j hj]
      rfl

/-- Membership in a JS-set `add`. -/
theorem mem_setAdd (s : List String) (x y : String) :
    y ∈ setAdd s x ↔ y ∈ s ∨ y = x := by
  unfold setAdd
  split
  next h =>
    constructor
    · exact Or.inl
    · rintro (hy | rfl)
      · exact hy
      · exact h
  next h => simp

/-- One candidate-loop iteration either leaves the known-ids set
untouched, or the candidate is a camera and the set becomes the old set
with the candidate's id added. -/
theorem applyTracksStep_known_eq (l : String) (inc : Bool)
    (prev : List VideoInput) (acc : ApplyAcc) (v : VideoInput) :
    (applyTracksStep l inc prev acc v).known = acc.known ∨
    ((applyTracksStep l inc prev acc v).known = setAdd acc.known v.id ∧
      v.type = VideoInputType.camera) := by
  unfold applyTracksStep
  split
  · exact Or.inl rfl
  · cases hfind : prev.find? (fun it => it.id = v.id) with
    | some p =>
      simp only [hfind]
      left
      split
      · split
        · split <;> rfl
        · rfl
      · split <;> rfl
    | none =>
      simp only [hfind]
      by_cases hss : v.type = VideoInputType.screenshare
      · cases v.track with
        | some t => exact Or.inl (by simp [hss])
        | none => exact Or.inl (by simp [hss])
      · have hcam : v.type = VideoInputType.camera := by
          cases hvt : v.type with
          | camera => rfl
          | screenshare => exact absurd hvt hss
        cases v.track with
        | some t => exact Or.inr ⟨by simp [hss], hcam⟩
        | none => exact Or.inr ⟨by simp [hss], hcam⟩

/-- Over the whole candidate loop, the known-ids set only grows, and
every id it gains is the id of a camera-type candidate in the batch. -/
theorem applyTracksFold_known (l : String) (inc : Bool)
    (prev : List VideoInput) (videos : List VideoInput) :
    ∀ acc : ApplyAcc,
      (∀ id ∈ acc.known,
        id ∈ (videos.foldl (applyTracksStep l inc prev) acc).known) ∧
      (∀ id ∈ (videos.foldl (applyTracksStep l inc prev) acc).known,
        id ∈ acc.known ∨
        ∃ v ∈ videos, v.type = VideoInputType.camera ∧ v.id = id) := by
  induction videos with
  | nil => exact fun acc => ⟨fun id h => h, fun id h => Or.inl h⟩
  | cons v vs ih =>
    intro acc
    have hstep := applyTracksStep_known_eq l inc prev acc v
    have hih := ih (applyTracksStep l inc prev acc v)
    constructor
    · intro id hid
      apply hih.1
      rcases hstep with heq | ⟨heq, _⟩
      · rw [heq]
        exact hid
      · rw [heq, mem_setAdd]
        exact Or.inl hid
    · intro id hid
      rcases hih.2 id hid with hmem | ⟨w, hw, hcam, hwid⟩
      · rcases hstep with heq | ⟨heq, hcam⟩
        · rw [heq] at hmem
          exact Or.inl hmem
        · rw [heq, mem_setAdd] at hmem
          rcases hmem with hmem | rfl
          · exact Or.inl hmem
          · exact Or.inr ⟨v, List.mem_cons_self v vs, hcam, rfl⟩
      · exact Or.inr ⟨w, List.mem_cons_of_mem v hw, hcam, hwid⟩

/-- `updateImageSources` never touches the known-ids set. -/
theorem updateImageSources_known (s : RendererState) (loads : String → Bool)
    (images : List (String × String)) (mergeType : String) :
    (updateImageSources s loads images
        mergeType).state.knownNonScreenshareVideoInputIds =
      s.knownNonScreenshareVideoInputIds := by
  unfold updateImageSources
  cases hfind : images.find? (fun p => ! loads p.2) with
  | some p => rfl
  | none =>
    by_cases h1 : mergeType = "merge"
    · simp [h1]
    · by_cases h2 : mergeType = "replace"
      · simp [h1, h2]
      · simp [h1, h2]

/-- The `sendParams` loop never touches the known-ids set. -/
theorem sendParamsGo_known (ps : List (String × String)) :
    ∀ s : RendererState,
      (sendParamsGo s ps).1.knownNonScreenshareVideoInputIds =
        s.knownNonScreenshareVideoInputIds := by
  induction ps with
  | nil => intro s; rfl
  | cons p ps ih =>
    intro s
    show (sendParamsGo (sendParam s p.1 p.2).1
        ps).1.knownNonScreenshareVideoInputIds = _
    rw [ih]
    rfl

/-!  Claim theorems. -/

/-- C1: the claim states that running `applyTracks` a second time with
the identical candidate list yields `changed = false` and an unchanged
committed slot list, including when a candidate's id equals the local
participant's session id.  The code violates this: for a local-id
candidate with an unchanged live track the reconciler pushes no slot at
all, so the second identical call reports a change and removes the
committed slot (it is then recreated on the third call, oscillating
forever).  This theorem evaluates the code at that failing input. -/
theorem c1_local_candidate_breaks_idempotence :
    (applyTracks baseState [localCam]).state.videoSlots =
      [{ localCam with element := some 0 }] ∧
    (applyTracks (applyTracks baseState [localCam]).state
        [localCam]).didChange = true ∧
    (applyTracks (applyTracks baseState [localCam]).state
        [localCam]).state.videoSlots = [] := by
  decide

/-- C2: the claim states that a candidate whose id matches a previous
slot but whose bound track identity differs always produces a slot in
the new slot list (binding the new track to an allocated or reused
surface).  The code violates this for a non-local id: the candidate is
dropped from the new slot list entirely (the slot disappears for one
pass, its surface is torn down, and it is only recreated on the next
pass).  This theorem evaluates the code at that failing input: previous
slot `"R"` bound to `"t1"` with surface `5`, candidate `"R"` bound to
`"t2"`, local session id `"L"`. -/
theorem c2_track_change_drops_remote_slot :
    (applyTracks stateWithR [candR2]).newSlots = [] ∧
    (applyTracks stateWithR [candR2]).didChange = true ∧
    (applyTracks stateWithR [candR2]).state.videoSlots = [] := by
  decide

/-- C3 counterexample: the claim states that a trackless camera
candidate whose id is in the known non-screenshare ids set is retained
in the new slot list.  Here `"C"` is known, `includePausedVideo` is
true, but the committed slot for `"C"` still holds a live track, so the
candidate survives the no-track skip and is then dropped by the
track-identity comparison: the new slot list is empty. -/
theorem c3_known_camera_not_retained :
    candC.track = none ∧
    candC.type = VideoInputType.camera ∧
    stateWithTrackedC.includePausedVideo = true ∧
    candC.id ∈ stateWithTrackedC.knownNonScreenshareVideoInputIds ∧
    (applyTracks stateWithTrackedC [candC]).newSlots = [] := by
  decide

/-- C3 (amended): for a candidate with no live track, a screen-share
candidate contributes nothing to the new slot list; a camera candidate
whose id is in the known non-screenshare ids set is (when
`includePausedVideo` is enabled) exempt from the no-track skip and
yields a slot — carrying the candidate's own paused flag — exactly when
no previous slot has its id, or when the previous slot with its id is
neither the local participant's nor bound to a live track; in all other
cases it is dropped for this pass. -/
theorem c3_placeholder_retention_rule (s : RendererState) (v : VideoInput)
    (hTrack : v.track = none) :
    (v.type = VideoInputType.screenshare →
      (applyTracks s [v]).newSlots = []) ∧
    (v.type = VideoInputType.camera → s.includePausedVideo = true →
      v.id ∈ s.knownNonScreenshareVideoInputIds →
      (applyTracks s [v]).newSlots =
        match s.videoSlots.find? (fun it => it.id = v.id) with
        | none => [{ v with element := none }]
        | some p =>
          if s.localSessionId = p.id then []
          else if p.track = none then
            [{ p with
                dominant := v.dominant
                paused := v.paused
                displayName := v.displayName }]
          else []) := by
  constructor
  · intro hty
    rw [applyTracks_newSlots_eq]
    unfold applyTracksAcc
    simp only [List.foldl_cons, List.foldl_nil, applyTracksStep]
    rw [if_pos ⟨hTrack, by simp [hty]⟩]
  · intro hty hinc hmem
    rw [applyTracks_newSlots_eq]
    unfold applyTracksAcc
    simp only [List.foldl_cons, List.foldl_nil, applyTracksStep]
    rw [if_neg (fun hskip => hskip.2 ⟨hinc, by simp [hty], hmem⟩)]
    cases hfind : s.videoSlots.find? (fun it => it.id = v.id) with
    | none => simp [hfind, hTrack]
    | some p =>
      simp only [hfind]
      by_cases hloc : s.localSessionId = p.id
      · simp [hloc, hTrack]
      · cases hpt : p.track with
        | none => simp [hloc, hpt, hTrack, trackId]
        | some t => simp [hloc, hpt, hTrack, trackId]

/-- C3 witness: a trackless camera candidate for the known id `"C"`
with no committed slot is retained as a placeholder with its own paused
flag. -/
theorem c3_placeholder_retention_rule_witness :
    (applyTracks stateKnownC [candC]).newSlots =
      [{ candC with element := none }] ∧
    candC.paused = true := by
  have h := (c3_placeholder_retention_rule stateKnownC candC rfl).2
    rfl rfl (by decide)
  refine ⟨?_, rfl⟩
  simpa [stateKnownC, baseState, initState] using h

/-- C4: change detection in `applyTracks` declares a change exactly when
the new and previous slot lists differ in length, or at some position
differ in id, paused flag, dominant flag, display name, or bound-track
identity; and when no change is declared, the committed slot list and
the active-slot array are left untouched and no downstream call (image
sources, active slots, scale factor) is made. -/
theorem c4_change_detection (s : RendererState) (videos : List VideoInput) :
    ((applyTracks s videos).didChange = true ↔
      (applyTracks s videos).newSlots.length ≠ s.videoSlots.length ∨
      ∃ (i : Nat) (h1 : i < (applyTracks s videos).newSlots.length)
        (h2 : i < s.videoSlots.length),
        slotFieldsDiffer ((applyTracks s videos).newSlots.get ⟨i, h1⟩)
          (s.videoSlots.get ⟨i, h2⟩)) ∧
    ((applyTracks s videos).didChange = false →
      (applyTracks s videos).state.videoSlots = s.videoSlots ∧
      (applyTracks s videos).state.activeVideoInputSlots =
        s.activeVideoInputSlots ∧
      (applyTracks s videos).emits = []) := by
  constructor
  · rw [applyTracks_didChange_eq, applyTracks_newSlots_eq]
    exact computeDidChange_iff _ _
  · intro h
    have hc : computeDidChange (applyTracksAcc s videos).newSlots
        s.videoSlots = false := by
      rw [← applyTracks_didChange_eq]
      exact h
    unfold applyTracks
    rw [hc]
    exact ⟨rfl, rfl, rfl⟩

/-- C4 witness: a reconciliation pass whose candidate equals the
committed slot reports no change and leaves everything untouched. -/
theorem c4_change_detection_witness :
    (applyTracks stateWithR [slotR]).state.videoSlots =
      stateWithR.videoSlots ∧
    (applyTracks stateWithR [slotR]).state.activeVideoInputSlots =
      stateWithR.activeVideoInputSlots ∧
    (applyTracks stateWithR [slotR]).emits = [] := by
  have h := (c4_change_detection stateWithR [slotR]).2 (by decide)
  exact h

/-- C6 counterexample: the claim states that a call with a mode other
than `merge`/`replace` is rejected before any image-load probing occurs.
The code creates and fires every load probe before the mode is examined:
with mode `"bogus"`, the probe for asset `"a"` is issued. -/
theorem c6_invalid_mode_still_probes :
    ("bogus" ≠ "merge" ∧ "bogus" ≠ "replace") ∧
    (updateImageSources baseState (fun _ => true) [("a", "u1")]
        "bogus").probed = ["a"] := by
  decide

/-- C5: if any image-load probe in an `updateImageSources` batch fails,
the entire batch is rejected: the renderer state (in particular the
committed asset-image map) is left exactly equal to its pre-call value,
no downstream push is made, and exactly one error is surfaced, naming a
failing asset. -/
theorem c5_failed_probe_rejects_batch (s : RendererState)
    (loads : String → Bool) (images : List (String × String))
    (mergeType : String)
    (hfail : ∃ p ∈ images, loads p.2 = false) :
    (updateImageSources s loads images mergeType).state = s ∧
    (updateImageSources s loads images mergeType).emits = [] ∧
    ∃ p ∈ images, loads p.2 = false ∧
      (updateImageSources s loads images mergeType).error =
        some ("Image load failed, asset " ++ p.1) := by
  have hsome : (images.find? (fun p => ! loads p.2)).isSome := by
    rw [List.find?_isSome]
    obtain ⟨p, hp, hl⟩ := hfail
    exact ⟨p, hp, by simp [hl]⟩
  obtain ⟨q, hq⟩ := Option.isSome_iff_exists.mp hsome
  have hql : loads q.2 = false := by
    have := List.find?_some hq
    simpa using this
  unfold updateImageSources
  rw [hq]
  exact ⟨rfl, rfl, q, List.mem_of_find?_eq_some hq, hql, rfl⟩

/-- C5 witness: a two-asset merge batch whose second URL fails to load
leaves the state untouched, pushes nothing, and surfaces the error for
the failing asset. -/
theorem c5_failed_probe_rejects_batch_witness :
    (updateImageSources baseState (fun u => decide (u ≠ "bad"))
        [("a", "good"), ("b", "bad")] "merge").state = baseState ∧
    (updateImageSources baseState (fun u => decide (u ≠ "bad"))
        [("a", "good"), ("b", "bad")] "merge").emits = [] ∧
    ∃ p ∈ [("a", "good"), ("b", "bad")], decide (p.2 ≠ "bad") = false ∧
      (updateImageSources baseState (fun u => decide (u ≠ "bad"))
          [("a", "good"), ("b", "bad")] "merge").error =
        some ("Image load failed, asset " ++ p.1) := by
  exact c5_failed_probe_rejects_batch baseState (fun u => decide (u ≠ "bad"))
    [("a", "good"), ("b", "bad")] "merge" (by decide)

/-- C6 (amended): a call with a mode other than `merge`/`replace` is
rejected only after the probe phase — load probes are issued for every
entry of the batch regardless of the mode — but the operation is indeed
aborted: no state is mutated, nothing is pushed downstream, and an error
is surfaced. -/
theorem c6_invalid_mode_aborts_after_probing (s : RendererState)
    (loads : String → Bool) (images : List (String × String))
    (mergeType : String) (h1 : mergeType ≠ "merge")
    (h2 : mergeType ≠ "replace") :
    (updateImageSources s loads images mergeType).state = s ∧
    (updateImageSources s loads images mergeType).emits = [] ∧
    (updateImageSources s loads images mergeType).probed =
      images.map Prod.fst ∧
    (updateImageSources s loads images mergeType).error.isSome = true := by
  unfold updateImageSources
  cases hfind : images.find? (fun p => ! loads p.2) with
  | some p => exact ⟨rfl, rfl, rfl, rfl⟩
  | none =>
    simp [h1, h2]

/-- C6 witness: a call with mode `"bogus"` probes its single asset,
mutates nothing, pushes nothing, and surfaces an error. -/
theorem c6_invalid_mode_aborts_after_probing_witness :
    (updateImageSources baseState (fun _ => true) [("a", "u1")]
        "bogus").state = baseState ∧
    (updateImageSources baseState (fun _ => true) [("a", "u1")]
        "bogus").emits = [] ∧
    (updateImageSources baseState (fun _ => true) [("a", "u1")]
        "bogus").probed = ["a"] ∧
    (updateImageSources baseState (fun _ => true) [("a", "u1")]
        "bogus").error.isSome = true := by
  exact c6_invalid_mode_aborts_after_probing baseState (fun _ => true)
    [("a", "u1")] "bogus" (by decide) (by decide)

/-- C7: the claim states that the active-slot array always has exactly
`maxVideoInputSlots` positions and input beyond the configured capacity
is never written past it.  The code's active-slot loop iterates up to
the module constant `MAX_VIDEO_INPUT_SLOTS = 20` instead of the
configured field: with capacity `5` and six live candidates the array
grows to 20 positions and position `5` receives the sixth slot.  This
theorem evaluates the code at that failing input. -/
theorem c7_active_array_ignores_configured_capacity :
    capFiveState.maxVideoInputSlots = 5 ∧
    capFiveState.activeVideoInputSlots.length = 5 ∧
    (applyTracks capFiveState sixCands).state.activeVideoInputSlots.length
      = 20 ∧
    (applyTracks capFiveState sixCands).state.activeVideoInputSlots.get? 5 =
      some (some
        { id := "p6", type := VideoInputType.camera, displayName := "p6",
          paused := false, dominant := false }) := by
  decide

/-- C8 counterexample: the claim states that a participant whose nested
track fields are missing projects to `paused = true`.  The code's
projection computes `t ? isTrackOff(t?.state) : false`, so a participant
with no `tracks` object projects to `paused = false` (the track is
absent and the display name defaults to `"Guest"` as claimed). -/
theorem c8_missing_tracks_projects_unpaused :
    (createVideoInputObject bareParticipant TrackName.video).track = none ∧
    (createVideoInputObject bareParticipant TrackName.video).displayName
      = "Guest" ∧
    (createVideoInputObject bareParticipant TrackName.video).paused
      = false := by
  decide

/-- C8 (amended): `createVideoInputObject` is total, and for every
participant record whose selected nested track field is missing the
produced input has an absent track, `paused = false` (pause is derived
only from a present track's state), `pausedByUser = false`, and a
display name that is empty for screen-share and otherwise the
participant's user name, defaulting to `"Guest"` when that is empty. -/
theorem c8_projection_missing_track_defaults (p : Participant)
    (name : TrackName)
    (h : p.tracks.bind (fun ts => selectTrack ts name) = none) :
    (createVideoInputObject p name).track = none ∧
    (createVideoInputObject p name).paused = false ∧
    (createVideoInputObject p name).pausedByUser = false ∧
    (createVideoInputObject p name).displayName =
      (if name = TrackName.screenVideo then ""
       else if p.user_name = "" then "Guest" else p.user_name) := by
  unfold createVideoInputObject
  simp [h]

/-- C8 witness: the defaults at a participant with no `tracks` object
and an empty user name. -/
theorem c8_projection_missing_track_defaults_witness :
    (createVideoInputObject bareParticipant TrackName.video).track = none ∧
    (createVideoInputObject bareParticipant TrackName.video).paused
      = false ∧
    (createVideoInputObject bareParticipant TrackName.video).pausedByUser
      = false ∧
    (createVideoInputObject bareParticipant TrackName.video).displayName
      = "Guest" := by
  have h := c8_projection_missing_track_defaults bareParticipant
    TrackName.video rfl
  simpa using h

/-- C9 counterexample: the claim states that each parameter send
triggers an `onParamsChanged` notification carrying the full accumulated
parameter map including the parameter just sent.  The code invokes the
callback before recording the value: sending `x` into an empty map
notifies with the empty map (and a following send of `y` notifies with a
map containing only `x`), while the value is recorded afterwards. -/
theorem c9_notification_lacks_sent_param :
    (sendParams baseState [("x", "1"), ("y", "2")] "merge").2 =
      [Emit.setParamValue "x" "1", Emit.onParamsChanged [],
       Emit.setParamValue "y" "2", Emit.onParamsChanged [("x", "1")]] ∧
    (sendParams baseState [("x", "1"), ("y", "2")] "merge").1.paramValues =
      [("x", "1"), ("y", "2")] := by
  decide

/-- C9 (amended): for every sequence of parameter updates sent through
`sendParams` in merge mode, each sent parameter is recorded in the
accumulated parameter map for later replay, and — when the renderer has
a `vcsApi` handle — each send triggers exactly one `onParamsChanged`
notification; the `i`-th notification carries the accumulated map as it
stood before the `i`-th parameter was recorded (so it contains every
previously sent parameter, but not yet the one just sent). -/
theorem c9_params_recorded_and_notified (s : RendererState)
    (params : List (String × String)) (h : s.hasVcsApi = true) :
    (sendParams s params "merge").1.paramValues =
      objAssign s.paramValues params ∧
    ((sendParams s params "merge").2.filter isParamsChangedEmit).length =
      params.length ∧
    ∀ i : Nat, i < params.length →
      ((sendParams s params "merge").2.filter isParamsChangedEmit).get? i =
        some (Emit.onParamsChanged
          (objAssign s.paramValues (params.take i))) := by
  have hm : sendParams s params "merge" = sendParamsGo s params := by
    unfold sendParams
    rw [if_neg (by decide)]
  rw [hm]
  exact ⟨sendParamsGo_paramValues params s,
    sendParamsGo_filter_length params s h,
    sendParamsGo_filter_get params s h⟩

/-- C10: the known non-screenshare ids set only ever grows — every id in
it before a reconciliation pass is still in it afterwards — and every id
it gains comes from a camera-type (never screenshare-type) candidate of
that pass; the image pipeline and the parameter pipeline never touch it.
Consequently, once a camera id has produced a slot it stays in the set
for the renderer's whole lifetime. -/
theorem c10_known_ids_grow_monotonically (s : RendererState)
    (videos : List VideoInput) (loads : String → Bool)
    (images : List (String × String)) (mode : String)
    (params : List (String × String)) (pmode : String) :
    (∀ id ∈ s.knownNonScreenshareVideoInputIds,
      id ∈ (applyTracks s videos).state.knownNonScreenshareVideoInputIds) ∧
    (∀ id ∈ (applyTracks s videos).state.knownNonScreenshareVideoInputIds,
      id ∈ s.knownNonScreenshareVideoInputIds ∨
      ∃ v ∈ videos, v.type = VideoInputType.camera ∧ v.id = id) ∧
    (updateImageSources s loads images
        mode).state.knownNonScreenshareVideoInputIds =
      s.knownNonScreenshareVideoInputIds ∧
    (sendParams s params pmode).1.knownNonScreenshareVideoInputIds =
      s.knownNonScreenshareVideoInputIds := by
  have hfold := applyTracksFold_known s.localSessionId s.includePausedVideo
    s.videoSlots videos
    { newSlots := []
      known := s.knownNonScreenshareVideoInputIds
      nextElementId := s.nextElementId }
  refine ⟨?_, ?_, updateImageSources_known s loads images mode, ?_⟩
  · intro id hid
    rw [applyTracks_known_eq]
    exact hfold.1 id hid
  · intro id hid
    rw [applyTracks_known_eq] at hid
    exact hfold.2 id hid
  · unfold sendParams
    by_cases hm : pmode = "replace"
    · rw [if_pos hm, sendParamsGo_known]
    · rw [if_neg hm, sendParamsGo_known]

/-- C10 witness: a pass over a fresh camera candidate keeps the already
known id `"C"` and adds only the camera id; the image and parameter
pipelines leave the set alone. -/
theorem c10_known_ids_grow_monotonically_witness :
    "C" ∈ (applyTracks stateKnownC
        [localCam]).state.knownNonScreenshareVideoInputIds ∧
    (updateImageSources stateKnownC (fun _ => true) []
        "merge").state.knownNonScreenshareVideoInputIds = ["C"] ∧
    (sendParams stateKnownC [("x", "1")]
        "merge").1.knownNonScreenshareVideoInputIds = ["C"] := by
  have h := c10_known_ids_grow_monotonically stateKnownC [localCam]
    (fun _ => true) [] "merge" [("x", "1")] "merge"
  refine ⟨h.1 "C" (by decide), ?_, ?_⟩
  · rw [h.2.2.1]
    rfl
  · rw [h.2.2.2]
    rfl

/-- C9 witness: sending `x` then `y` into a fresh renderer records both
and notifies twice, the first notification carrying the empty map and
the second carrying only `x`. -/
theorem c9_params_recorded_and_notified_witness :
    (sendParams baseState [("x", "1"), ("y", "2")] "merge").1.paramValues =
      [("x", "1"), ("y", "2")] ∧
    ((sendParams baseState [("x", "1"), ("y", "2")]
        "merge").2.filter isParamsChangedEmit).length = 2 ∧
    ((sendParams baseState [("x", "1"), ("y", "2")]
        "merge").2.filter isParamsChangedEmit).get? 1 =
      some (Emit.onParamsChanged [("x", "1")]) := by
  have h := c9_params_recorded_and_notified baseState
    [("x", "1"), ("y", "2")] rfl
  exact ⟨h.1, h.2.1, h.2.2 1 (by decide)⟩

end VCSWeb
